import Mathlib

set_option linter.unusedVariables false

/-!
Shallow embedding of the HyperVolt dispatch decision engine
(src/ai/module3-ai/optimize_sources.py and src/ai/module3-ai/decision_engine.py).
Python floats are modelled as rationals, so arithmetic is exact; a statement
that the source satisfies "within tolerance 1e-6" is proved as exact equality
in this model, which implies the tolerance.
-/

/-- The closed set of energy sources (class EnergySource in optimize_sources.py). -/
inductive EnergySource where
  | grid
  | solar
  | battery
deriving DecidableEq, Repr

/-- The conditions dictionary consumed by SourceOptimizer.optimize_source:
solar_radiation (0-1 proxy), cloud_cover (0-100), hour (0-23),
carbon_intensity (gCO2eq per kWh), grid_price (currency per kWh). -/
structure Conditions where
  solar_radiation : ℚ
  cloud_cover : ℚ
  hour : ℤ
  carbon_intensity : ℚ
  grid_price : ℚ
deriving DecidableEq, Repr

/-- The mutable state and configuration of SourceOptimizer
(SourceOptimizer.__init__ in optimize_sources.py). -/
structure SourceOptimizer where
  carbon_weight : ℚ
  cost_weight : ℚ
  solar_capacity : ℚ
  battery_capacity : ℚ
  battery_max_discharge : ℚ
  battery_current_charge : ℚ
  battery_cycle_cost : ℚ
  solar_maintenance_cost : ℚ
deriving DecidableEq, Repr

/-- SourceOptimizer.__init__: the battery starts at 80 percent of capacity and
the two unit-cost constants are fixed at 0.10 and 0.05. -/
def mkSourceOptimizer (carbon_weight cost_weight solar_capacity battery_capacity
    battery_max_discharge : ℚ) : SourceOptimizer :=
  { carbon_weight := carbon_weight
    cost_weight := cost_weight
    solar_capacity := solar_capacity
    battery_capacity := battery_capacity
    battery_max_discharge := battery_max_discharge
    battery_current_charge := battery_capacity * (8/10)
    battery_cycle_cost := 1/10
    solar_maintenance_cost := 1/20 }

/-- SourceOptimizer.calculate_solar_available: zero outside 6..17, otherwise
solar_capacity times radiation times the linear cloud factor, floored at 0. -/
def calculate_solar_available (o : SourceOptimizer) (solar_radiation cloud_cover : ℚ)
    (hour : ℤ) : ℚ :=
  if hour < 6 ∨ 18 ≤ hour then 0
  else max 0 (o.solar_capacity * solar_radiation * ((100 - cloud_cover) / 100))

/-- SourceOptimizer.calculate_cost_score. -/
def calculate_cost_score (o : SourceOptimizer) (source : EnergySource)
    (power_needed grid_price : ℚ) : ℚ :=
  match source with
  | .grid => power_needed * grid_price
  | .solar => power_needed * o.solar_maintenance_cost
  | .battery => power_needed * o.battery_cycle_cost

/-- SourceOptimizer.calculate_carbon_score. -/
def calculate_carbon_score (o : SourceOptimizer) (source : EnergySource)
    (power_needed carbon_intensity : ℚ) : ℚ :=
  match source with
  | .grid => power_needed * carbon_intensity
  | .solar => power_needed * 50
  | .battery => power_needed * carbon_intensity * (8/10)

/-- SourceOptimizer.calculate_combined_score: carbon normalized to a currency
equivalent (1 kg CO2 = 10 currency units) and mixed by the two weights. -/
def calculate_combined_score (o : SourceOptimizer) (cost_score carbon_score : ℚ) : ℚ :=
  o.cost_weight * cost_score + o.carbon_weight * (carbon_score / 1000 * 10)

/-- Combined score of one source for the requested demand, as computed in the
scores loop of SourceOptimizer.optimize_source. -/
def source_combined_score (o : SourceOptimizer) (source : EnergySource)
    (power_needed : ℚ) (c : Conditions) : ℚ :=
  calculate_combined_score o
    (calculate_cost_score o source power_needed c.grid_price)
    (calculate_carbon_score o source power_needed c.carbon_intensity)

/-- Solar power taken in step 1 of SourceOptimizer.optimize_source: when solar
is available and demand remains, the smaller of the two, otherwise nothing.
The solar entry is appended exactly when this amount is positive. -/
def solar_used_calc (o : SourceOptimizer) (power_needed : ℚ) (c : Conditions) : ℚ :=
  let solar_available := calculate_solar_available o c.solar_radiation c.cloud_cover c.hour
  if 0 < solar_available ∧ 0 < power_needed then min solar_available power_needed else 0

/-- Battery power taken in step 2 of SourceOptimizer.optimize_source: when
demand remains after solar, the battery has power available
(min of its max discharge rate and its current charge, with no health floor)
and the battery combined score beats the grid combined score, the smaller of
availability and remaining demand; otherwise nothing.  The battery entry is
appended exactly when this amount is positive. -/
def battery_used_calc (o : SourceOptimizer) (power_needed : ℚ) (c : Conditions) : ℚ :=
  let battery_available := min o.battery_max_discharge o.battery_current_charge
  let remaining1 := power_needed - solar_used_calc o power_needed c
  if 0 < remaining1 ∧ 0 < battery_available ∧
      source_combined_score o .battery power_needed c <
        source_combined_score o .grid power_needed c
  then min battery_available remaining1 else 0

/-- SourceOptimizer.optimize_source: greedy fill (solar, then battery when its
combined score beats grid, then grid for the residual), returning the
allocation list and the updated optimizer state.  The only mutation performed
by the Python method is the subtraction of the used battery power from
battery_current_charge. -/
def optimize_source (o : SourceOptimizer) (power_needed : ℚ) (c : Conditions) :
    List (EnergySource × ℚ) × SourceOptimizer :=
  let solar_used := solar_used_calc o power_needed c
  let battery_used := battery_used_calc o power_needed c
  let remaining := power_needed - solar_used - battery_used
  ((if 0 < solar_used then [(.solar, solar_used)] else []) ++
   (if 0 < battery_used then [(.battery, battery_used)] else []) ++
   (if 0 < remaining then [(.grid, remaining)] else []),
   { o with battery_current_charge := o.battery_current_charge - battery_used })

/-- SourceOptimizer.charge_battery_from_solar: add the excess, capped at the
remaining headroom to capacity; returns the charged amount and the new state. -/
def charge_battery_from_solar (o : SourceOptimizer) (solar_excess : ℚ) :
    ℚ × SourceOptimizer :=
  let charge_amount := min solar_excess (o.battery_capacity - o.battery_current_charge)
  (charge_amount, { o with battery_current_charge := o.battery_current_charge + charge_amount })

/-- Sum of the power column of an allocation list. -/
def allocTotal (a : List (EnergySource × ℚ)) : ℚ :=
  (a.map fun p => p.2).sum

/-- The grid actions of the arbitrage step of VestaDecisionEngine.make_decision. -/
inductive GridAction where
  | dischargeToGrid
  | chargeFromGrid
deriving DecidableEq, Repr

/-- The grid-arbitrage step of VestaDecisionEngine.make_decision
(decision_engine.py lines 229-257): sell down towards 50 percent of capacity
when the price is above 8 and the charge above 80 percent; buy at up to 2 kW
towards capacity when the price is below 4 and the charge below 60 percent;
otherwise do nothing.  Returns ((action, revenue), updated optimizer). -/
def arbitrage (o : SourceOptimizer) (grid_price : ℚ) :
    (Option GridAction × ℚ) × SourceOptimizer :=
  let battery_level := o.battery_current_charge
  let battery_pct := battery_level / o.battery_capacity * 100
  if 8 < grid_price ∧ 80 < battery_pct then
    let sellable_power := min o.battery_max_discharge
      (battery_level - o.battery_capacity * (1/2))
    if 0 < sellable_power then
      ((some .dischargeToGrid, sellable_power * grid_price),
        { o with battery_current_charge := battery_level - sellable_power })
    else ((none, 0), o)
  else if grid_price < 4 ∧ battery_pct < 60 then
    let charge_amount := min 2 (o.battery_capacity - battery_level)
    if 0 < charge_amount then
      ((some .chargeFromGrid, -charge_amount * grid_price),
        { o with battery_current_charge := battery_level + charge_amount })
    else ((none, 0), o)
  else ((none, 0), o)

/-- Load classification (class LoadType in decision_engine.py). -/
inductive LoadType where
  | critical
  | deferrable
deriving DecidableEq, Repr

/-- One registry entry: classification and rated power in kW. -/
structure Load where
  ltype : LoadType
  power_kw : ℚ
deriving DecidableEq, Repr

/-- The result dictionary of LoadManager.should_defer_load. -/
structure DeferDecision where
  defer : Bool
  reason : String
  load_type : Option LoadType
  carbon_savings : Option ℚ
  cost_savings : Option ℚ
deriving DecidableEq, Repr

/-- LoadManager: carbon threshold plus the fixed load registry built in
LoadManager.__init__. -/
structure LoadManager where
  carbon_threshold : ℚ
  loads : List (String × Load)
deriving DecidableEq, Repr

/-- LoadManager.__init__: the seven registered loads with their classes and
typical power consumption. -/
def mkLoadManager (carbon_threshold : ℚ) : LoadManager :=
  { carbon_threshold := carbon_threshold
    loads := [
      ("lights", ⟨.critical, 2/10⟩),
      ("router", ⟨.critical, 5/100⟩),
      ("refrigerator", ⟨.critical, 15/100⟩),
      ("washing_machine", ⟨.deferrable, 15/10⟩),
      ("ev_charger", ⟨.deferrable, 3⟩),
      ("air_conditioner", ⟨.deferrable, 2⟩),
      ("dishwasher", ⟨.deferrable, 12/10⟩)] }

/-- Dictionary lookup in the load registry (self.loads[load_name]). -/
def lookupLoad : List (String × Load) → String → Option Load
  | [], _ => none
  | p :: rest, name => if p.1 = name then some p.2 else lookupLoad rest name

/-- LoadManager.should_defer_load: critical loads are never deferred; a
deferrable load is deferred when carbon intensity exceeds the threshold
(checked first) or when the grid price exceeds 8. -/
def should_defer_load (lm : LoadManager) (load_name : String)
    (carbon_intensity grid_price : ℚ) : DeferDecision :=
  match lookupLoad lm.loads load_name with
  | none => ⟨false, "Unknown load", none, none, none⟩
  | some load =>
    match load.ltype with
    | .critical =>
      ⟨false, "Critical load - cannot defer", some .critical, none, none⟩
    | .deferrable =>
      if lm.carbon_threshold < carbon_intensity then
        ⟨true, "High carbon intensity - defer until cleaner", some .deferrable,
          some (load.power_kw * (carbon_intensity - 400)), none⟩
      else if 8 < grid_price then
        ⟨true, "High grid price - defer until cheaper", some .deferrable,
          none, some (load.power_kw * (grid_price - 5))⟩
      else
        ⟨false, "Good conditions - proceed with load", some .deferrable, none, none⟩

/-- The aggregate result of LoadManager.get_load_shedding_recommendation. -/
structure ShedResult where
  recommendations : List (String × DeferDecision)
  total_deferred_power_kw : ℚ
  total_carbon_saved_g : ℚ
deriving DecidableEq, Repr

/-- LoadManager.get_load_shedding_recommendation: per-load decisions plus the
sums of deferred rated power and of the estimated carbon savings of the
deferred loads. -/
def get_load_shedding_recommendation (lm : LoadManager)
    (carbon_intensity grid_price : ℚ) : ShedResult :=
  { recommendations := lm.loads.map fun p =>
      (p.1, should_defer_load lm p.1 carbon_intensity grid_price)
    total_deferred_power_kw := (lm.loads.map fun p =>
      if (should_defer_load lm p.1 carbon_intensity grid_price).defer
      then p.2.power_kw else 0).sum
    total_carbon_saved_g := (lm.loads.map fun p =>
      let d := should_defer_load lm p.1 carbon_intensity grid_price
      if d.defer then (d.carbon_savings.getD 0) else 0).sum }

/-- The fields of the per-tick decision dictionary assembled by
VestaDecisionEngine.make_decision that this development reasons about. -/
structure DecisionRecord where
  forecast_6h : List ℚ
  predicted_demand : ℚ
  source_allocation : List (EnergySource × ℚ)
  battery_charge : ℚ
  grid_action : Option GridAction
  grid_revenue : ℚ
  total_deferred_power_kw : ℚ
  recommendation : List String
deriving DecidableEq, Repr

/-- VestaDecisionEngine._generate_recommendation: builds the list of tagged
phrases.  The demand-spike check reads forecast[1] and forecast[0]
unconditionally, so the function fails (returns none) when the forecast has
fewer than two entries. -/
def generate_recommendation (battery_capacity : ℚ) (forecast : List ℚ)
    (allocation : List (EnergySource × ℚ)) (battery_charge : ℚ)
    (grid_action : Option GridAction) (total_deferred : ℚ) :
    Option (List String) :=
  let rec0 : List String :=
    match grid_action with
    | some .dischargeToGrid => ["SELLING to grid"]
    | some .chargeFromGrid => ["BUYING from grid (low price)"]
    | none => []
  let rec1 := if 0 < total_deferred then rec0 ++ ["Load Shedding"] else rec0
  let rec2 := if allocation.any (fun p => p.1 = .solar)
    then rec1 ++ ["Using solar power (cleanest option)"] else rec1
  let rec3 := if allocation.any (fun p => p.1 = .battery)
    then rec2 ++ ["Drawing from battery (cost-effective)"] else rec2
  let rec4 := if allocation.any (fun p => p.1 = .grid)
    then rec3 ++ ["Supplementing with grid power"] else rec3
  match forecast.get? 1, forecast.get? 0 with
  | some f1, some f0 =>
    let rec5 := if f0 * (12/10) < f1
      then rec4 ++ ["Demand will increase significantly in next hour"] else rec4
    let battery_pct := battery_charge / battery_capacity * 100
    let rec6 :=
      if battery_pct < 20 then rec5 ++ ["Battery low - consider charging during low-cost hours"]
      else if 80 < battery_pct then rec5 ++ ["Battery well charged"]
      else rec5
    some rec6
  | _, _ => none

/-- VestaDecisionEngine.make_decision: read forecast[0] as the demand to serve,
run the arbitrage step, run the allocator, collect load-shedding advice and
the recommendation text, and assemble the decision record.  An out-of-bounds
forecast access aborts the tick (none); state mutations that happened before
the failing access persist, as in the Python original. -/
def make_decision (o : SourceOptimizer) (lm : LoadManager) (forecast : List ℚ)
    (c : Conditions) : Option DecisionRecord × SourceOptimizer :=
  match forecast.get? 0 with
  | none => (none, o)
  | some current_power_needed =>
    let arb := arbitrage o c.grid_price
    let grid_action := arb.1.1
    let grid_revenue := arb.1.2
    let o1 := arb.2
    let opt := optimize_source o1 current_power_needed c
    let allocation := opt.1
    let o2 := opt.2
    let load_recs := get_load_shedding_recommendation lm c.carbon_intensity c.grid_price
    match generate_recommendation o2.battery_capacity forecast allocation
        o2.battery_current_charge grid_action load_recs.total_deferred_power_kw with
    | none => (none, o2)
    | some recText =>
      (some { forecast_6h := forecast
              predicted_demand := current_power_needed
              source_allocation := allocation
              battery_charge := o2.battery_current_charge
              grid_action := grid_action
              grid_revenue := grid_revenue
              total_deferred_power_kw := load_recs.total_deferred_power_kw
              recommendation := recText }, o2)

/-- The optimizer as configured in VestaDecisionEngine.__init__. -/
def engine_optimizer : SourceOptimizer := mkSourceOptimizer (1/2) (1/2) 3 10 2

/-- The load manager as configured in VestaDecisionEngine.__init__. -/
def engine_load_manager : LoadManager := mkLoadManager 700

/-- The engine optimizer with its battery set to a given charge level. -/
def optimizer_with_charge (q : ℚ) : SourceOptimizer :=
  { engine_optimizer with battery_current_charge := q }

/-- One state-mutating call of the engine: an allocator call, the arbitrage
step of a make_decision tick, or a solar recharge. -/
inductive EngineOp where
  | allocate (demand : ℚ) (c : Conditions)
  | arbitrageStep (grid_price : ℚ)
  | chargeSolar (solar_excess : ℚ)

/-- Effect of one engine call on the optimizer state. -/
def applyOp (o : SourceOptimizer) : EngineOp → SourceOptimizer
  | .allocate demand c => (optimize_source o demand c).2
  | .arbitrageStep grid_price => (arbitrage o grid_price).2
  | .chargeSolar solar_excess => (charge_battery_from_solar o solar_excess).2

/-- The numeric arguments of the call are non-negative. -/
def EngineOp.nonnegArgs : EngineOp → Prop
  | .allocate demand _ => 0 ≤ demand
  | .arbitrageStep grid_price => 0 ≤ grid_price
  | .chargeSolar solar_excess => 0 ≤ solar_excess

/-- The battery bounds invariant of the optimizer state. -/
def BatteryInv (o : SourceOptimizer) : Prop :=
  0 ≤ o.battery_current_charge ∧ o.battery_current_charge ≤ o.battery_capacity

/-- Modelled from the spec: the Battery Health Policy dischargeFloor
(spec section 4.2).  No implementation exists under src; the three tiers
0.10 / 0.25 / 0.40 appear only in the feature demo test_new_features.py
(test_battery_health), which documents a degradation cost of 5 per cycle. -/
def dischargeFloor (potentialProfit degradationCostPerCycle : ℚ) : ℚ :=
  if 2 * degradationCostPerCycle < potentialProfit then 1/10
  else if degradationCostPerCycle < potentialProfit then 25/100
  else 40/100

/-- Modelled from the spec: battery power available to the Allocator on one
tick under the Battery Health Policy (spec section 4.1 step 2):
min(batteryMaxDischargeRate, batteryCharge - batteryCapacity x dischargeFloor),
floored at 0. -/
def spec_battery_available (o : SourceOptimizer)
    (potentialProfit degradationCostPerCycle : ℚ) : ℚ :=
  max 0 (min o.battery_max_discharge
    (o.battery_current_charge -
      o.battery_capacity * dischargeFloor potentialProfit degradationCostPerCycle))

/-- Modelled from the spec: the claimed solar availability of C4 for daylight
hours - irradiance-derived power scaled by a cloud penalty of at most 10
percent at 100 percent cover, clamped to the interval from 0 to
solarCapacity.  Used only to state the counterexample. -/
def claimed_solar_lower_bound (o : SourceOptimizer) (solar_radiation cloud_cover : ℚ) : ℚ :=
  o.solar_capacity * solar_radiation * (1 - cloud_cover / 1000)

theorem solar_used_nonneg (o : SourceOptimizer) (d : ℚ) (c : Conditions) :
    0 ≤ solar_used_calc o d c := by
  simp only [solar_used_calc]
  split_ifs with h
  · exact le_min h.1.le h.2.le
  · exact le_refl 0

theorem solar_used_le (o : SourceOptimizer) (d : ℚ) (c : Conditions) (hd : 0 ≤ d) :
    solar_used_calc o d c ≤ d := by
  simp only [solar_used_calc]
  split_ifs with h
  · exact min_le_right _ _
  · exact hd

theorem battery_used_nonneg (o : SourceOptimizer) (d : ℚ) (c : Conditions) :
    0 ≤ battery_used_calc o d c := by
  simp only [battery_used_calc]
  split_ifs with h
  · exact le_min h.2.1.le h.1.le
  · exact le_refl 0

theorem battery_used_le_remaining (o : SourceOptimizer) (d : ℚ) (c : Conditions)
    (hd : 0 ≤ d) : battery_used_calc o d c ≤ d - solar_used_calc o d c := by
  simp only [battery_used_calc]
  split_ifs with h
  · exact min_le_right _ _
  · have := solar_used_le o d c hd
    linarith

theorem battery_used_le_charge (o : SourceOptimizer) (d : ℚ) (c : Conditions)
    (h : 0 ≤ o.battery_current_charge) :
    battery_used_calc o d c ≤ o.battery_current_charge := by
  simp only [battery_used_calc]
  split_ifs with hcond
  · exact le_trans (min_le_left _ _) (min_le_right _ _)
  · exact h

theorem optimize_source_charge (o : SourceOptimizer) (d : ℚ) (c : Conditions) :
    (optimize_source o d c).2.battery_current_charge
      = o.battery_current_charge - battery_used_calc o d c := rfl

theorem optimize_source_capacity (o : SourceOptimizer) (d : ℚ) (c : Conditions) :
    (optimize_source o d c).2.battery_capacity = o.battery_capacity := rfl

theorem arbitrage_capacity (o : SourceOptimizer) (gp : ℚ) :
    (arbitrage o gp).2.battery_capacity = o.battery_capacity := by
  simp only [arbitrage]
  split_ifs <;> rfl

theorem allocate_inv (o : SourceOptimizer) (d : ℚ) (c : Conditions)
    (h : BatteryInv o) : BatteryInv (optimize_source o d c).2 := by
  obtain ⟨h0, hc⟩ := h
  refine ⟨?_, ?_⟩
  · rw [optimize_source_charge]
    have := battery_used_le_charge o d c h0
    linarith
  · rw [optimize_source_charge, optimize_source_capacity]
    have := battery_used_nonneg o d c
    linarith

theorem arbitrage_inv (o : SourceOptimizer) (gp : ℚ)
    (h : BatteryInv o) : BatteryInv (arbitrage o gp).2 := by
  obtain ⟨h0, hc⟩ := h
  have hcap : 0 ≤ o.battery_capacity := le_trans h0 hc
  simp only [arbitrage, BatteryInv]
  split_ifs with h1 h2 h3 h4
  · refine ⟨?_, ?_⟩ <;> dsimp only
    · have := min_le_right o.battery_max_discharge
        (o.battery_current_charge - o.battery_capacity * (1/2))
      linarith
    · linarith
  · exact ⟨h0, hc⟩
  · refine ⟨?_, ?_⟩ <;> dsimp only
    · linarith
    · have := min_le_right 2 (o.battery_capacity - o.battery_current_charge)
      linarith
  · exact ⟨h0, hc⟩
  · exact ⟨h0, hc⟩

theorem charge_solar_inv (o : SourceOptimizer) (e : ℚ) (he : 0 ≤ e)
    (h : BatteryInv o) : BatteryInv (charge_battery_from_solar o e).2 := by
  obtain ⟨h0, hc⟩ := h
  simp only [charge_battery_from_solar, BatteryInv]
  refine ⟨?_, ?_⟩ <;> dsimp only
  · have : 0 ≤ min e (o.battery_capacity - o.battery_current_charge) :=
      le_min he (by linarith)
    linarith
  · have := min_le_right e (o.battery_capacity - o.battery_current_charge)
    linarith

theorem batteryInv_foldl (ops : List EngineOp) : ∀ o : SourceOptimizer,
    BatteryInv o → (∀ op ∈ ops, op.nonnegArgs) →
    BatteryInv (ops.foldl applyOp o) := by
  induction ops with
  | nil => intro o h _; exact h
  | cons op rest ih =>
    intro o h hops
    simp only [List.foldl_cons]
    refine ih _ ?_ ?_
    · cases op with
      | allocate d c => exact allocate_inv _ _ _ h
      | arbitrageStep gp => exact arbitrage_inv _ _ h
      | chargeSolar e =>
        exact charge_solar_inv _ _ (hops _ (List.mem_cons_self _ _)) h
    · intro op2 h2
      exact hops op2 (List.mem_cons_of_mem _ h2)

theorem negative_demand_helper (o : SourceOptimizer) (d : ℚ) (c : Conditions)
    (hd : d < 0) :
    (optimize_source o d c).1 = [] ∧ (optimize_source o d c).2 = o := by
  have hsu : solar_used_calc o d c = 0 := by
    simp only [solar_used_calc]
    rw [if_neg]
    rintro ⟨-, h2⟩
    exact absurd h2 (not_lt.mpr hd.le)
  have hbu : battery_used_calc o d c = 0 := by
    simp only [battery_used_calc, hsu, sub_zero]
    rw [if_neg]
    rintro ⟨h1, -⟩
    exact absurd h1 (not_lt.mpr hd.le)
  constructor
  · simp only [optimize_source, hsu, hbu, sub_zero, lt_irrefl, if_false,
      List.append_nil, List.nil_append]
    rw [if_neg (not_lt.mpr hd.le)]
  · simp only [optimize_source, hbu, sub_zero]

/-- C2 (confirmed). Demand conservation: for every non-negative demand and
every snapshot and optimizer state, the powers in the allocation returned by
optimize_source sum to exactly the requested demand.  Exact equality in the
rational model implies the claimed 1e-6 floating tolerance. -/
theorem demand_conservation (o : SourceOptimizer) (demand : ℚ) (c : Conditions)
    (hd : 0 ≤ demand) : allocTotal (optimize_source o demand c).1 = demand := by
  have h1 := solar_used_nonneg o demand c
  have h2 := solar_used_le o demand c hd
  have h3 := battery_used_nonneg o demand c
  have h4 := battery_used_le_remaining o demand c hd
  simp only [optimize_source, allocTotal, List.map_append, List.sum_append]
  split_ifs with hs hb hr <;>
    simp only [List.map_nil, List.map_cons, List.sum_nil, List.sum_cons] <;>
    linarith

/-- Witness for C2: a call with demand 2 at noon with clear sky sums to 2. -/
theorem demand_conservation_witness :
    allocTotal (optimize_source engine_optimizer 2 ⟨1, 0, 12, 500, 6⟩).1 = 2 :=
  demand_conservation engine_optimizer 2 ⟨1, 0, 12, 500, 6⟩ (by norm_num)

/-- C10 (confirmed). Allocation frame: a single optimize_source call changes
only battery_current_charge; the weights, capacities, rates and the two fixed
unit-cost constants are unchanged for all inputs. -/
theorem allocation_frame (o : SourceOptimizer) (d : ℚ) (c : Conditions) :
    (optimize_source o d c).2.carbon_weight = o.carbon_weight ∧
    (optimize_source o d c).2.cost_weight = o.cost_weight ∧
    (optimize_source o d c).2.solar_capacity = o.solar_capacity ∧
    (optimize_source o d c).2.battery_capacity = o.battery_capacity ∧
    (optimize_source o d c).2.battery_max_discharge = o.battery_max_discharge ∧
    (optimize_source o d c).2.battery_cycle_cost = o.battery_cycle_cost ∧
    (optimize_source o d c).2.solar_maintenance_cost = o.solar_maintenance_cost :=
  ⟨rfl, rfl, rfl, rfl, rfl, rfl, rfl⟩

/-- C6 counterexample. The claim says a negative demand is rejected with an
error and no Allocation is returned; in the source optimize_source performs no
validation: at demand -1 it returns normally with the empty allocation and the
state untouched. -/
theorem negative_demand_counterexample :
    (optimize_source engine_optimizer (-1) ⟨1, 0, 12, 500, 6⟩).1 = [] ∧
    (optimize_source engine_optimizer (-1) ⟨1, 0, 12, 500, 6⟩).2 = engine_optimizer :=
  negative_demand_helper engine_optimizer (-1) ⟨1, 0, 12, 500, 6⟩ (by norm_num)

/-- C6 (corrected). For every demand below zero, optimize_source does not
reject: it returns normally with an empty allocation and leaves the
OptimizerState, in particular batteryCharge, unchanged. -/
theorem negative_demand_no_validation (o : SourceOptimizer) (d : ℚ)
    (c : Conditions) (hd : d < 0) :
    (optimize_source o d c).1 = [] ∧ (optimize_source o d c).2 = o :=
  negative_demand_helper o d c hd

/-- Witness for C6: the amended behaviour at demand -2. -/
theorem negative_demand_no_validation_witness :
    (optimize_source engine_optimizer (-2) ⟨0, 50, 3, 400, 5⟩).1 = [] ∧
    (optimize_source engine_optimizer (-2) ⟨0, 50, 3, 400, 5⟩).2 = engine_optimizer :=
  negative_demand_no_validation engine_optimizer (-2) ⟨0, 50, 3, 400, 5⟩ (by norm_num)

/-- C1 (confirmed). Battery bounds invariant: starting from the initial state
with batteryCharge equal to 0.8 times batteryCapacity, after every sequence of
allocator calls, arbitrage steps and solar recharges with non-negative
arguments the state satisfies 0 <= batteryCharge <= batteryCapacity.  Every
prefix of a sequence is itself such a sequence, so the invariant holds after
every call. -/
theorem battery_bounds_invariant (carbon_weight cost_weight solar_capacity
    battery_capacity battery_max_discharge : ℚ)
    (hcap : 0 ≤ battery_capacity) (ops : List EngineOp)
    (hops : ∀ op ∈ ops, op.nonnegArgs) :
    BatteryInv (ops.foldl applyOp (mkSourceOptimizer carbon_weight cost_weight
      solar_capacity battery_capacity battery_max_discharge)) := by
  refine batteryInv_foldl ops _ ⟨?_, ?_⟩ hops
  · show 0 ≤ battery_capacity * (8/10)
    nlinarith
  · show battery_capacity * (8/10) ≤ battery_capacity
    nlinarith

/-- Witness for C1: a concrete three-call sequence on the engine configuration
keeps the battery within bounds. -/
theorem battery_bounds_invariant_witness :
    BatteryInv ([EngineOp.allocate 2 ⟨1, 0, 12, 500, 6⟩, EngineOp.arbitrageStep 9,
      EngineOp.chargeSolar 1].foldl applyOp (mkSourceOptimizer (1/2) (1/2) 3 10 2)) :=
  battery_bounds_invariant (1/2) (1/2) 3 10 2 (by norm_num) _ (by
    intro op h
    simp only [List.mem_cons, List.not_mem_nil, or_false] at h
    rcases h with rfl | rfl | rfl <;> norm_num [EngineOp.nonnegArgs])

/-- C5 (confirmed). Solar-first policy: when the computed solar availability
covers the whole non-negative demand and the hour is in the daylight window,
the allocation has no grid entry and no battery entry, and the battery charge
is not reduced (it is unchanged). -/
theorem solar_first (o : SourceOptimizer) (demand : ℚ) (c : Conditions)
    (hd : 0 ≤ demand) (hhour1 : 6 ≤ c.hour) (hhour2 : c.hour < 18)
    (hsolar : demand ≤ calculate_solar_available o c.solar_radiation c.cloud_cover c.hour) :
    (∀ p ∈ (optimize_source o demand c).1,
      p.1 ≠ EnergySource.grid ∧ p.1 ≠ EnergySource.battery) ∧
    (optimize_source o demand c).2.battery_current_charge = o.battery_current_charge := by
  have hsu : solar_used_calc o demand c = demand := by
    simp only [solar_used_calc]
    rcases eq_or_lt_of_le hd with h0 | h0
    · rw [if_neg]
      · exact h0
      · rintro ⟨-, h2⟩
        rw [← h0] at h2
        exact lt_irrefl 0 h2
    · rw [if_pos ⟨lt_of_lt_of_le h0 hsolar, h0⟩]
      exact min_eq_right hsolar
  have hbu : battery_used_calc o demand c = 0 := by
    simp only [battery_used_calc, hsu, sub_self]
    rw [if_neg]
    rintro ⟨h1, -⟩
    exact lt_irrefl 0 h1
  constructor
  · intro p hp
    simp only [optimize_source, hsu, hbu, sub_self, sub_zero, lt_irrefl, if_false,
      List.append_nil] at hp
    split_ifs at hp with h
    · simp only [List.mem_singleton] at hp
      rw [hp]
      exact ⟨by simp, by simp⟩
    · exact absurd hp (List.not_mem_nil p)
  · rw [optimize_source_charge, hbu, sub_zero]

/-- Witness for C5: demand 2 at noon with clear sky (solar availability 3) is
served by solar alone and the battery is untouched. -/
theorem solar_first_witness :
    (∀ p ∈ (optimize_source engine_optimizer 2 ⟨1, 0, 12, 500, 6⟩).1,
      p.1 ≠ EnergySource.grid ∧ p.1 ≠ EnergySource.battery) ∧
    (optimize_source engine_optimizer 2 ⟨1, 0, 12, 500, 6⟩).2.battery_current_charge
      = engine_optimizer.battery_current_charge :=
  solar_first engine_optimizer 2 ⟨1, 0, 12, 500, 6⟩ (by norm_num) (by norm_num)
    (by norm_num)
    (by norm_num [calculate_solar_available, engine_optimizer, mkSourceOptimizer, max_def])

/-- C7 (confirmed). Arbitrage exclusivity and values, with the engine
configuration (capacity 10, max discharge rate 2): at price 9 with charge 8.5
the step discharges to grid, selling min(2, 8.5 - 5) = 2 kW for revenue
2 x 9 = 18 and leaving 6.5 kWh; at price 3.5 with charge 5 it charges from
grid by min(2, 10 - 5) = 2 kW with revenue -7 and leaves 7 kWh; for every
price and charge outside the two bands the action is none with revenue 0.
The step returns a single optional action, so at most one action happens per
tick by construction. -/
theorem arbitrage_exclusivity_and_values :
    ((arbitrage (optimizer_with_charge (17/2)) 9).1
        = (some GridAction.dischargeToGrid, min 2 (17/2 - 5) * 9) ∧
      (arbitrage (optimizer_with_charge (17/2)) 9).2.battery_current_charge = 13/2) ∧
    ((arbitrage (optimizer_with_charge 5) (7/2)).1
        = (some GridAction.chargeFromGrid, -7) ∧
      (arbitrage (optimizer_with_charge 5) (7/2)).2.battery_current_charge = 7) ∧
    (∀ charge grid_price : ℚ,
      ¬(8 < grid_price ∧ 80 < charge / 10 * 100) →
      ¬(grid_price < 4 ∧ charge / 10 * 100 < 60) →
      (arbitrage (optimizer_with_charge charge) grid_price).1 = (none, 0)) := by
  refine ⟨⟨?_, ?_⟩, ⟨?_, ?_⟩, ?_⟩
  · norm_num [arbitrage, optimizer_with_charge, engine_optimizer, mkSourceOptimizer, min_def]
  · norm_num [arbitrage, optimizer_with_charge, engine_optimizer, mkSourceOptimizer, min_def]
  · norm_num [arbitrage, optimizer_with_charge, engine_optimizer, mkSourceOptimizer, min_def]
  · norm_num [arbitrage, optimizer_with_charge, engine_optimizer, mkSourceOptimizer, min_def]
  · intro charge grid_price h1 h2
    simp only [arbitrage, optimizer_with_charge, engine_optimizer, mkSourceOptimizer]
    rw [if_neg, if_neg]
    · exact h2
    · exact h1

/-- Witness for C7: price 6 with charge 7 lies outside both bands, so the
arbitrage step does nothing. -/
theorem arbitrage_exclusivity_and_values_witness :
    (arbitrage (optimizer_with_charge 7) 6).1 = (none, 0) :=
  arbitrage_exclusivity_and_values.2.2 7 6 (by norm_num) (by norm_num)

/-- C9 (confirmed). The recommendation generation inside make_decision reads
forecast[1] unconditionally, so a tick with a forecast of length exactly 1
fails and produces no decision record, and a decision record is only produced
when the forecast has at least two entries. -/
theorem decide_requires_two_forecast_entries (o : SourceOptimizer)
    (lm : LoadManager) (forecast : List ℚ) (c : Conditions) :
    (forecast.length = 1 → (make_decision o lm forecast c).1 = none) ∧
    ((make_decision o lm forecast c).1.isSome → 2 ≤ forecast.length) := by
  match forecast with
  | [] =>
    refine ⟨?_, ?_⟩
    · intro h
      simp at h
    · intro h
      simp [make_decision] at h
  | [a] =>
    refine ⟨?_, ?_⟩
    · intro _
      simp [make_decision, generate_recommendation]
    · intro h
      simp [make_decision, generate_recommendation] at h
  | a :: b :: t =>
    refine ⟨?_, ?_⟩
    · intro h
      simp at h
    · intro _
      simp only [List.length_cons]
      omega

/-- Witness for C9: a length-one forecast produces no decision record. -/
theorem decide_requires_two_forecast_entries_witness :
    (make_decision engine_optimizer engine_load_manager [5] ⟨1, 0, 12, 500, 6⟩).1 = none :=
  (decide_requires_two_forecast_entries engine_optimizer engine_load_manager
    [5] ⟨1, 0, 12, 500, 6⟩).1 rfl

/-- C3 (code bug).  The allocator in the source computes battery availability
as min(batteryMaxDischargeRate, batteryCharge) with no discharge floor, while
the documented Battery Health Policy (spec section 4.2 and the repository
feature demo test_new_features.py) prescribes
min(rate, charge - capacity x dischargeFloor).  Failing input: charge 5 of
capacity 10, demand 2 at hour 0 with grid price 1 and carbon intensity 500
(potential profit 2 x (1 - 0.10) = 1.8, below the degradation cost 5, so the
documented floor is 0.40, i.e. 4 kWh).  The code discharges 2 kW down to
3 kWh; the documented policy allows only 1 kW. -/
theorem discharge_floor_missing :
    (optimize_source (optimizer_with_charge 5) 2 ⟨0, 0, 0, 500, 1⟩).1
      = [(EnergySource.battery, 2)] ∧
    (optimize_source (optimizer_with_charge 5) 2
      ⟨0, 0, 0, 500, 1⟩).2.battery_current_charge = 3 ∧
    dischargeFloor (2 * (1 - 1/10)) 5 = 40/100 ∧
    spec_battery_available (optimizer_with_charge 5) (2 * (1 - 1/10)) 5 = 1 := by
  refine ⟨?_, ?_, ?_, ?_⟩
  · norm_num [optimize_source, solar_used_calc, battery_used_calc,
      calculate_solar_available, source_combined_score, calculate_combined_score,
      calculate_cost_score, calculate_carbon_score,
      optimizer_with_charge, engine_optimizer, mkSourceOptimizer, min_def, max_def]
  · norm_num [optimize_source, solar_used_calc, battery_used_calc,
      calculate_solar_available, source_combined_score, calculate_combined_score,
      calculate_cost_score, calculate_carbon_score,
      optimizer_with_charge, engine_optimizer, mkSourceOptimizer, min_def, max_def]
  · norm_num [dischargeFloor]
  · norm_num [spec_battery_available, dischargeFloor,
      optimizer_with_charge, engine_optimizer, mkSourceOptimizer, min_def, max_def]

/-- C4 counterexample.  The claim says the cloud-cover penalty reduces output
by at most 10 percent at 100 percent cover; in the source the factor is
(100 - cloud_cover) / 100, so at full cover the output is 0, not at least the
claimed 2.7 kW (0.9 x 3 kW x radiation 1) at noon. -/
theorem solar_cloud_penalty_counterexample :
    calculate_solar_available engine_optimizer 1 100 12 = 0 ∧
    claimed_solar_lower_bound engine_optimizer 1 100 = 27/10 ∧
    calculate_solar_available engine_optimizer 1 100 12
      ≠ claimed_solar_lower_bound engine_optimizer 1 100 := by
  refine ⟨?_, ?_, ?_⟩ <;>
    norm_num [calculate_solar_available, claimed_solar_lower_bound,
      engine_optimizer, mkSourceOptimizer, max_def]

/-- C4 (corrected). Daylight solar availability: for hours 6..17 and inputs in
their documented ranges (radiation proxy in 0..1, cloud cover in 0..100),
calculate_solar_available returns solarCapacity x radiation x
((100 - cloudCover) / 100) - a proportional cloud penalty that removes up to
100 percent of the output at full cover - and the result lies in the interval
from 0 to solarCapacity; the only explicit clamp in the code is the floor
at 0. -/
theorem solar_daylight_formula (o : SourceOptimizer) (r cc : ℚ) (hour : ℤ)
    (hcap : 0 ≤ o.solar_capacity) (h6 : 6 ≤ hour) (h18 : hour < 18)
    (hr0 : 0 ≤ r) (hr1 : r ≤ 1) (hcc0 : 0 ≤ cc) (hcc1 : cc ≤ 100) :
    calculate_solar_available o r cc hour
      = o.solar_capacity * r * ((100 - cc) / 100) ∧
    0 ≤ calculate_solar_available o r cc hour ∧
    calculate_solar_available o r cc hour ≤ o.solar_capacity := by
  have hcond : ¬(hour < 6 ∨ 18 ≤ hour) := by omega
  have hfac0 : 0 ≤ (100 - cc) / 100 := by
    apply div_nonneg <;> linarith
  have hval : 0 ≤ o.solar_capacity * r * ((100 - cc) / 100) :=
    mul_nonneg (mul_nonneg hcap hr0) hfac0
  have heq : calculate_solar_available o r cc hour
      = o.solar_capacity * r * ((100 - cc) / 100) := by
    simp only [calculate_solar_available]
    rw [if_neg hcond]
    exact max_eq_right hval
  refine ⟨heq, heq ▸ hval, ?_⟩
  rw [heq]
  have hfac1 : (100 - cc) / 100 ≤ 1 := by
    rw [div_le_one (by norm_num : (0:ℚ) < 100)]
    linarith
  have hmul : r * ((100 - cc) / 100) ≤ 1 := by
    calc r * ((100 - cc) / 100) ≤ 1 * 1 := mul_le_mul hr1 hfac1 hfac0 (by norm_num)
    _ = 1 := one_mul 1
  calc o.solar_capacity * r * ((100 - cc) / 100)
      = o.solar_capacity * (r * ((100 - cc) / 100)) := mul_assoc _ _ _
  _ ≤ o.solar_capacity * 1 := mul_le_mul_of_nonneg_left hmul hcap
  _ = o.solar_capacity := mul_one _

/-- Witness for C4: half radiation with 50 percent cloud at noon gives
3 x 0.5 x 0.5 = 0.75 kW, inside the interval from 0 to 3. -/
theorem solar_daylight_formula_witness :
    calculate_solar_available engine_optimizer (1/2) 50 12
      = engine_optimizer.solar_capacity * (1/2) * ((100 - 50) / 100) ∧
    0 ≤ calculate_solar_available engine_optimizer (1/2) 50 12 ∧
    calculate_solar_available engine_optimizer (1/2) 50 12
      ≤ engine_optimizer.solar_capacity :=
  solar_daylight_formula engine_optimizer (1/2) 50 12
    (by norm_num [engine_optimizer, mkSourceOptimizer]) (by norm_num) (by norm_num)
    (by norm_num) (by norm_num) (by norm_num) (by norm_num)

/-- C8 counterexample.  At carbon intensity 850 against threshold 700 with
grid price 6, the aggregate deferred power is 7.7 kW, not the claimed 6.5 kW:
the registry contains a fourth deferrable load (dishwasher, 1.2 kW) besides
the three the claim lists. -/
theorem load_shedding_counterexample :
    (get_load_shedding_recommendation engine_load_manager 850 6).total_deferred_power_kw
      = 77/10 ∧ (77/10 : ℚ) ≠ 13/2 := by
  constructor
  · simp [get_load_shedding_recommendation, engine_load_manager, mkLoadManager,
      should_defer_load, lookupLoad]
    all_goals norm_num
  · norm_num

/-- C8 (corrected). Load-shedding threshold scenario: with carbon intensity
850 against threshold 700 and grid price 6 (below the price threshold), every
deferrable load in the registry is deferred and the aggregate deferred power
is 7.7 kW (the four deferrable loads 1.5, 3.0, 2.0 and 1.2 kW); and for all
carbon intensity and grid price values, no load classified critical ever
appears deferred in the recommendations. -/
theorem load_shedding_thresholds :
    ((get_load_shedding_recommendation engine_load_manager 850 6).total_deferred_power_kw
      = 77/10) ∧
    (∀ p ∈ engine_load_manager.loads, p.2.ltype = LoadType.deferrable →
      (should_defer_load engine_load_manager p.1 850 6).defer = true) ∧
    (∀ (ci gp : ℚ),
      ∀ p ∈ (get_load_shedding_recommendation engine_load_manager ci gp).recommendations,
      p.2.defer = true → p.2.load_type = some LoadType.deferrable) := by
  refine ⟨?_, ?_, ?_⟩
  · simp [get_load_shedding_recommendation, engine_load_manager, mkLoadManager,
      should_defer_load, lookupLoad]
    all_goals norm_num
  · intro p hp hdef
    simp only [engine_load_manager, mkLoadManager, List.mem_cons,
      List.not_mem_nil, or_false] at hp
    rcases hp with rfl | rfl | rfl | rfl | rfl | rfl | rfl <;>
      simp_all [should_defer_load, lookupLoad, engine_load_manager, mkLoadManager] <;>
      norm_num
  · intro ci gp p hp hdef
    simp only [get_load_shedding_recommendation, List.mem_map] at hp
    obtain ⟨q, hq, rfl⟩ := hp
    simp only [engine_load_manager, mkLoadManager, List.mem_cons,
      List.not_mem_nil, or_false] at hq
    rcases hq with rfl | rfl | rfl | rfl | rfl | rfl | rfl <;>
      simp_all only [should_defer_load, lookupLoad, engine_load_manager, mkLoadManager] <;>
      split_ifs at hdef ⊢ <;> simp_all

/-- Witness for C8: the washing machine (a deferrable registry entry) is
deferred in the threshold scenario. -/
theorem load_shedding_thresholds_witness :
    (should_defer_load engine_load_manager "washing_machine" 850 6).defer = true :=
  load_shedding_thresholds.2.1 ("washing_machine", ⟨.deferrable, 15/10⟩)
    (by simp [engine_load_manager, mkLoadManager]) rfl
